import Mathlib

/-!
SistemaRiego: a shallow embedding of the irrigation-controller core

This file models, in Lean, the two cooperating state machines of the
SistemaRiego firmware:

* the irrigation sequencer `ServoPWMController`
  (src/src/drivers/ServoPWMController.cpp), and
* the supervisor `SystemManager` (src/src/core/SystemManager.cpp),

together with the configuration constants they use
(src/lib/drivers/SERVO_CONFIG.h, src/firmware/include/utils/SET_PIN.h).

Hardware side effects (LEDC PWM writes, serial logging, LED blinking) carry
no state that the modelled control logic ever reads back, so they are
dropped; every field of the C++ objects that the control flow reads or
writes is represented.  Calls to `millis()` inside one member function are
modelled by a single `now : Nat` argument to that operation.
-/

namespace SistemaRiego

/-! ## Configuration constants (SERVO_CONFIG.h, SET_PIN.h) -/

def SERVO_CLOSED_ANGLE : Nat := 0

def SERVO_OPEN_ANGLE : Nat := 90

def IRRIGATION_TIME_PER_ZONE_SECONDS : Nat := 300

def TRANSITION_TIME_SECONDS : Nat := 10

def SERVO_MOVEMENT_TIME_MS : Nat := 1000

def PWM_MIN_PULSE : Nat := 205

def PWM_MAX_PULSE : Nat := 410

def MAX_IRRIGATION_TIME_SECONDS : Nat := 1800

def MIN_IRRIGATION_TIME_SECONDS : Nat := 60

def MAX_SERVO_RETRY_ATTEMPTS : Nat := 3

def STATUS_REPORT_INTERVAL_MS : Nat := 5000

def SERVO_PINS : List Nat := [25, 26, 27, 32, 33]

def NUM_SERVOS : Nat := SERVO_PINS.length

/-! ## Enumerations (ServoPWMController.h) -/

inductive IrrigationState where
  | IDLE
  | INITIALIZING
  | OPENING_VALVE
  | IRRIGATING
  | CLOSING_VALVE
  | TRANSITIONING
  | COMPLETED
  | ERROR
deriving DecidableEq, Repr

inductive ServoState where
  | UNINITIALIZED
  | CLOSED
  | OPENING
  | OPEN
  | CLOSING
  | ERROR
deriving DecidableEq, Repr

/-! ## Zone configuration and runtime data (SERVO_CONFIG.h, ServoPWMController.h) -/

structure ServoZoneConfig where
  irrigationTime : Nat
  openAngle : Nat
  enabled : Bool
  name : String
deriving DecidableEq, Repr

def DEFAULT_ZONE_CONFIG : ServoZoneConfig :=
  { irrigationTime := IRRIGATION_TIME_PER_ZONE_SECONDS
    openAngle := SERVO_OPEN_ANGLE
    enabled := true
    name := "Zona de Riego" }

def ZONE_CONFIGURATIONS : List ServoZoneConfig :=
  [ { irrigationTime := 300, openAngle := 90, enabled := true, name := "Jardin Frontal" },
    { irrigationTime := 240, openAngle := 75, enabled := true, name := "Jardin Lateral" },
    { irrigationTime := 360, openAngle := 90, enabled := true, name := "Huerta Trasera" },
    { irrigationTime := 180, openAngle := 60, enabled := true, name := "Arboles Frutales" },
    { irrigationTime := 420, openAngle := 90, enabled := true, name := "Cesped Principal" } ]

structure ZoneInfo where
  zoneNumber : Nat
  servoPin : Nat
  pwmChannel : Nat
  currentState : ServoState
  lastActionTime : Nat
  totalIrrigationTime : Nat
  isEnabled : Bool
  config : ServoZoneConfig
  retryCount : Nat
deriving DecidableEq, Repr

instance : Inhabited ZoneInfo :=
  ⟨{ zoneNumber := 0, servoPin := 0, pwmChannel := 0,
     currentState := ServoState.UNINITIALIZED, lastActionTime := 0,
     totalIrrigationTime := 0, isEnabled := false,
     config := DEFAULT_ZONE_CONFIG, retryCount := 0 }⟩

/-! ## Controller state (the private fields of `ServoPWMController`)

`errLastRecovery` models the function-static `lastRecoveryAttempt` variable
in `handleErrorState` (zero-initialized).  `totalZones` of the C++ object is
`zones.length` here. -/

structure Controller where
  zones : List ZoneInfo
  currentZone : Nat
  systemState : IrrigationState
  stateStartTime : Nat
  lastStatusReport : Nat
  autoCycle : Bool
  emergencyStop : Bool
  totalCyclesCompleted : Nat
  totalWateringTime : Nat
  systemStartTime : Nat
  errLastRecovery : Nat
deriving DecidableEq, Repr

/-- In-place update of a single list element, mirroring `zones[i] = ...`;
out-of-range indices leave the list unchanged (the C++ code guards every
write with an index check). -/
def modifyIdx (f : α → α) : Nat → List α → List α
  | _, [] => []
  | 0, a :: as => f a :: as
  | n + 1, a :: as => a :: modifyIdx f n as

theorem length_modifyIdx (f : α → α) (n : Nat) (l : List α) :
    (modifyIdx f n l).length = l.length := by
  induction l generalizing n with
  | nil => cases n <;> rfl
  | cons a as ih =>
    cases n with
    | zero => rfl
    | succ m => simpa [modifyIdx] using ih m

theorem get_modifyIdx_self (f : α → α) (l : List α) (i : Nat)
    (h : i < l.length) (h2 : i < (modifyIdx f i l).length) :
    (modifyIdx f i l).get ⟨i, h2⟩ = f (l.get ⟨i, h⟩) := by
  induction l generalizing i with
  | nil => simp at h
  | cons a as ih =>
    cases i with
    | zero => rfl
    | succ m =>
      simp only [modifyIdx, List.get]
      exact ih m (by simpa using h) (by simpa [length_modifyIdx] using h2)

theorem get_modifyIdx_ne (f : α → α) (l : List α) (n i : Nat) (hne : i ≠ n)
    (h : i < l.length) (h2 : i < (modifyIdx f n l).length) :
    (modifyIdx f n l).get ⟨i, h2⟩ = l.get ⟨i, h⟩ := by
  induction l generalizing n i with
  | nil => simp at h
  | cons a as ih =>
    cases n with
    | zero =>
      cases i with
      | zero => exact absurd rfl hne
      | succ j => rfl
    | succ m =>
      cases i with
      | zero => rfl
      | succ j =>
        simp only [modifyIdx, List.get]
        exact ih m j (fun hc => hne (by simp [hc]))
          (by simpa using h) (by simpa [length_modifyIdx] using h2)

namespace Controller

def totalZones (s : Controller) : Nat := s.zones.length

def modifyZone (s : Controller) (i : Nat) (f : ZoneInfo → ZoneInfo) : Controller :=
  { s with zones := modifyIdx f i s.zones }

/-- `ServoPWMController::angleToHaltValue`: clamp the angle to 180 and
linearly interpolate between `PWM_MIN_PULSE` and `PWM_MAX_PULSE`. -/
def angleToHaltValue (angle : Nat) : Nat :=
  let a := if angle > 180 then 180 else angle
  PWM_MIN_PULSE + (PWM_MAX_PULSE - PWM_MIN_PULSE) * a / 180

/-- `ServoPWMController::moveServoToAngle`: fails on an out-of-range index;
otherwise writes the PWM duty (no modelled state) and marks the zone
`CLOSING` when the target is the closed angle, `OPENING` otherwise. -/
def moveServoToAngle (s : Controller) (zoneIndex targetAngle now : Nat) :
    Bool × Controller :=
  if zoneIndex ≥ s.totalZones then (false, s)
  else
    let a := if targetAngle > 180 then 180 else targetAngle
    let st := if a = SERVO_CLOSED_ANGLE then ServoState.CLOSING else ServoState.OPENING
    (true, s.modifyZone zoneIndex fun z =>
      { z with currentState := st, lastActionTime := now })

/-- `ServoPWMController::setupServo`: move the servo closed and, on success,
mark the zone `CLOSED` and reset its retry counter. -/
def setupServo (s : Controller) (zoneIndex now : Nat) : Bool × Controller :=
  if zoneIndex ≥ s.totalZones then (false, s)
  else
    let m := s.moveServoToAngle zoneIndex SERVO_CLOSED_ANGLE now
    if m.1 then
      (true, m.2.modifyZone zoneIndex fun z =>
        { z with currentState := ServoState.CLOSED, lastActionTime := now,
                 retryCount := 0 })
    else (false, m.2)

/-- `ServoPWMController::emergencyStopAll`. -/
def emergencyStopAll (s : Controller) (now : Nat) : Controller :=
  { s with
    emergencyStop := true
    systemState := IrrigationState.ERROR
    autoCycle := false
    zones := s.zones.map fun z =>
      { z with currentState := ServoState.CLOSED, lastActionTime := now } }

/-- `ServoPWMController::resetEmergencyStop`. -/
def resetEmergencyStop (s : Controller) : Controller :=
  if ¬ s.emergencyStop then s
  else
    { s with
      emergencyStop := false
      systemState := IrrigationState.IDLE
      zones := s.zones.map fun z =>
        { z with currentState := ServoState.CLOSED, retryCount := 0 } }

/-- `ServoPWMController::validateConfiguration`. -/
def validateConfiguration (s : Controller) : Bool :=
  s.totalZones ≠ 0 &&
  s.zones.all fun z =>
    z.servoPin ≠ 0 &&
    MIN_IRRIGATION_TIME_SECONDS ≤ z.config.irrigationTime &&
    z.config.irrigationTime ≤ MAX_IRRIGATION_TIME_SECONDS &&
    z.config.openAngle ≤ 180

/-- `ServoPWMController::init`: validate, set up every servo closed, then
enter `IDLE` with the emergency flag cleared.  PWM channel setup only talks
to hardware; `setupServo` succeeds for every in-range index, so the loop
never aborts. -/
def init (s : Controller) (now : Nat) : Bool × Controller :=
  if s.totalZones = 0 then (false, s)
  else if ¬ s.validateConfiguration then (false, s)
  else
    (true,
      { s with
        zones := s.zones.map fun z =>
          { z with currentState := ServoState.CLOSED, lastActionTime := now,
                   retryCount := 0 }
        systemState := IrrigationState.IDLE
        systemStartTime := now
        emergencyStop := false })

/-- `ServoPWMController::handleServoError`: bump the retry counter (a
`uint8_t`), re-setup the servo while the counter is within the retry limit,
and otherwise disable the zone, mark it `ERROR`, and escalate to an
emergency stop when no enabled non-`ERROR` zone remains. -/
def handleServoError (s : Controller) (zoneIndex now : Nat) : Bool × Controller :=
  if zoneIndex ≥ s.totalZones then (false, s)
  else
    let s1 := s.modifyZone zoneIndex fun z =>
      { z with retryCount := (z.retryCount + 1) % 256 }
    let retry := (s1.zones[zoneIndex]?.getD default).retryCount
    if retry ≤ MAX_SERVO_RETRY_ATTEMPTS then
      (true, (s1.setupServo zoneIndex now).2)
    else
      let s2 := s1.modifyZone zoneIndex fun z =>
        { z with currentState := ServoState.ERROR, isEnabled := false }
      let allInError := s2.zones.all fun z =>
        ¬ (z.currentState ≠ ServoState.ERROR ∧ z.isEnabled = true)
      if allInError then (false, s2.emergencyStopAll now)
      else (true, s2)

/-- First enabled zone at index ≥ `k` (the `while (... && !isEnabled)`
search loops in `startIrrigationCycle`, `handleClosingValveState` and
`handleCompletedState`); returns an index ≥ `zones.length` when none. -/
def nextEnabledFrom (zs : List ZoneInfo) (k : Nat) : Nat :=
  k + (zs.drop k).findIdx fun z => z.isEnabled

/-- `ServoPWMController::startIrrigationCycle`. -/
def startIrrigationCycle (s : Controller) (enableAutoCycle : Bool) (now : Nat) :
    Bool × Controller :=
  if s.systemState ≠ IrrigationState.IDLE ∧
     s.systemState ≠ IrrigationState.COMPLETED then (false, s)
  else if s.emergencyStop then (false, s)
  else if (s.zones.filter fun z => z.isEnabled).length = 0 then (false, s)
  else
    (true,
      { s with
        autoCycle := enableAutoCycle
        currentZone := nextEnabledFrom s.zones 0
        systemState := IrrigationState.INITIALIZING
        stateStartTime := now })

/-- The per-zone closing pass at the end of
`ServoPWMController::stopIrrigationCycle`: any `OPEN`/`OPENING` zone is
commanded closed and marked `CLOSING`. -/
def stopCloseZone (now : Nat) (z : ZoneInfo) : ZoneInfo :=
  if z.currentState = ServoState.OPEN ∨ z.currentState = ServoState.OPENING then
    { z with currentState := ServoState.CLOSING, lastActionTime := now }
  else z

/-- `ServoPWMController::stopIrrigationCycle`: mid-irrigation the state
becomes `CLOSING_VALVE`, otherwise `IDLE`; in both cases every open(ing)
valve is commanded closed. -/
def stopIrrigationCycle (s : Controller) (now : Nat) : Controller :=
  if s.systemState = IrrigationState.IRRIGATING ∨
     s.systemState = IrrigationState.OPENING_VALVE then
    { s with
      systemState := IrrigationState.CLOSING_VALVE
      stateStartTime := now
      zones := s.zones.map (stopCloseZone now) }
  else
    { s with
      systemState := IrrigationState.IDLE
      autoCycle := false
      zones := s.zones.map (stopCloseZone now) }

/-- The per-zone pass of `handleInitializingState`: any zone that is not
`CLOSED` is commanded closed and marked `CLOSED`. -/
def initCloseZone (now : Nat) (z : ZoneInfo) : ZoneInfo :=
  if z.currentState ≠ ServoState.CLOSED then
    { z with currentState := ServoState.CLOSED, lastActionTime := now }
  else z

/-- `ServoPWMController::handleInitializingState`: force every non-closed
zone closed; once every zone was already closed, begin opening the current
zone's valve. -/
def handleInitializingState (s : Controller) (now : Nat) : Controller :=
  if s.zones.all fun z => z.currentState = ServoState.CLOSED then
    { s with
      zones := s.zones.map (initCloseZone now)
      systemState := IrrigationState.OPENING_VALVE
      stateStartTime := now }
  else { s with zones := s.zones.map (initCloseZone now) }

/-- `ServoPWMController::handleOpeningValveState`. -/
def handleOpeningValveState (s : Controller) (now : Nat) : Controller :=
  let targetAngle := (s.zones[s.currentZone]?.getD default).config.openAngle
  let m := s.moveServoToAngle s.currentZone targetAngle now
  if m.1 then
    let s2 := m.2.modifyZone s.currentZone fun z =>
      { z with currentState := ServoState.OPEN, lastActionTime := now }
    { s2 with systemState := IrrigationState.IRRIGATING, stateStartTime := now }
  else
    if now - s.stateStartTime > SERVO_MOVEMENT_TIME_MS * 2 then
      (s.handleServoError s.currentZone now).2
    else s

/-- `ServoPWMController::handleIrrigatingState`. -/
def handleIrrigatingState (s : Controller) (now : Nat) : Controller :=
  let elapsed := (now - s.stateStartTime) / 1000
  let target := (s.zones[s.currentZone]?.getD default).config.irrigationTime
  let s1 := s.modifyZone s.currentZone fun z =>
    { z with totalIrrigationTime := elapsed }
  let s2 :=
    if elapsed ≥ target then
      { s1 with
        systemState := IrrigationState.CLOSING_VALVE
        stateStartTime := now
        totalWateringTime := (s1.totalWateringTime + elapsed) % 2 ^ 32 }
    else s1
  if (s2.zones[s2.currentZone]?.map fun z => z.currentState) ≠ some ServoState.OPEN then
    (s2.moveServoToAngle s2.currentZone
      ((s2.zones[s2.currentZone]?.getD default).config.openAngle) now).2
  else s2

/-- `ServoPWMController::handleClosingValveState`: close the current valve,
then continue with the next enabled zone (`TRANSITIONING`) or finish the
cycle (`COMPLETED`). -/
def handleClosingValveState (s : Controller) (now : Nat) : Controller :=
  let m := s.moveServoToAngle s.currentZone SERVO_CLOSED_ANGLE now
  if m.1 then
    let s2 := m.2.modifyZone s.currentZone fun z =>
      { z with currentState := ServoState.CLOSED, lastActionTime := now }
    let nz := nextEnabledFrom s2.zones (s2.currentZone + 1)
    if nz < s2.totalZones then
      { s2 with
        currentZone := nz
        systemState := IrrigationState.TRANSITIONING
        stateStartTime := now }
    else
      { s2 with
        systemState := IrrigationState.COMPLETED
        stateStartTime := now
        totalCyclesCompleted := (s2.totalCyclesCompleted + 1) % 2 ^ 32 }
  else
    if now - s.stateStartTime > SERVO_MOVEMENT_TIME_MS * 2 then
      (s.handleServoError s.currentZone now).2
    else s

/-- `ServoPWMController::handleTransitioningState`. -/
def handleTransitioningState (s : Controller) (now : Nat) : Controller :=
  if (now - s.stateStartTime) / 1000 ≥ TRANSITION_TIME_SECONDS then
    { s with systemState := IrrigationState.OPENING_VALVE, stateStartTime := now }
  else s

/-- The local `CYCLE_RESTART_DELAY` constant of `handleCompletedState`. -/
def CYCLE_RESTART_DELAY : Nat := 300

/-- `ServoPWMController::handleCompletedState`. -/
def handleCompletedState (s : Controller) (now : Nat) : Controller :=
  if s.autoCycle then
    if (now - s.stateStartTime) / 1000 ≥ CYCLE_RESTART_DELAY then
      { s with
        currentZone := nextEnabledFrom s.zones 0
        systemState := IrrigationState.INITIALIZING
        stateStartTime := now }
    else s
  else { s with systemState := IrrigationState.IDLE }

/-- The local `RECOVERY_INTERVAL` constant of `handleErrorState`. -/
def RECOVERY_INTERVAL : Nat := 10000

/-- `ServoPWMController::handleErrorState`: every `RECOVERY_INTERVAL`, close
every valve and re-run `init`; on failure escalate to an emergency stop. -/
def handleErrorState (s : Controller) (now : Nat) : Controller :=
  if now - s.errLastRecovery ≥ RECOVERY_INTERVAL then
    let s1 :=
      { s with
        zones := s.zones.map fun z : ZoneInfo =>
          { z with currentState := ServoState.CLOSED, lastActionTime := now } }
    let r := s1.init now
    let s2 :=
      if r.1 then { r.2 with systemState := IrrigationState.IDLE }
      else r.2.emergencyStopAll now
    { s2 with errLastRecovery := now }
  else s

/-- `ServoPWMController::update`: the non-blocking tick.  Returns
immediately while the emergency stop is active, otherwise refreshes the
status-report clock and dispatches on the system state. -/
def update (s : Controller) (now : Nat) : Controller :=
  if s.emergencyStop then s
  else
    let s0 :=
      if now - s.lastStatusReport ≥ STATUS_REPORT_INTERVAL_MS then
        { s with lastStatusReport := now }
      else s
    match s0.systemState with
    | IrrigationState.IDLE => s0
    | IrrigationState.INITIALIZING => s0.handleInitializingState now
    | IrrigationState.OPENING_VALVE => s0.handleOpeningValveState now
    | IrrigationState.IRRIGATING => s0.handleIrrigatingState now
    | IrrigationState.CLOSING_VALVE => s0.handleClosingValveState now
    | IrrigationState.TRANSITIONING => s0.handleTransitioningState now
    | IrrigationState.COMPLETED => s0.handleCompletedState now
    | IrrigationState.ERROR => s0.handleErrorState now

/-- `ServoPWMController::openZoneValve` (the `duration` parameter is only
logged; the automatic close it promises is an unimplemented TODO in the
source). -/
def openZoneValve (s : Controller) (zoneNumber duration now : Nat) :
    Bool × Controller :=
  if zoneNumber = 0 ∨ zoneNumber > s.totalZones then (false, s)
  else if s.emergencyStop then (false, s)
  else
    let zoneIndex := zoneNumber - 1
    let openAngle := (s.zones[zoneIndex]?.getD default).config.openAngle
    let m := s.moveServoToAngle zoneIndex openAngle now
    if m.1 then
      (true, m.2.modifyZone zoneIndex fun z =>
        { z with currentState := ServoState.OPENING, lastActionTime := now })
    else (false, m.2)

/-- `ServoPWMController::closeZoneValve` (note: no emergency-stop check in
the source). -/
def closeZoneValve (s : Controller) (zoneNumber now : Nat) : Bool × Controller :=
  if zoneNumber = 0 ∨ zoneNumber > s.totalZones then (false, s)
  else
    let zoneIndex := zoneNumber - 1
    let m := s.moveServoToAngle zoneIndex SERVO_CLOSED_ANGLE now
    if m.1 then
      (true, m.2.modifyZone zoneIndex fun z =>
        { z with currentState := ServoState.CLOSING, lastActionTime := now })
    else (false, m.2)

/-- `ServoPWMController::getZoneState`: sentinel `ERROR` for an
out-of-range zone number, otherwise read zone `zoneNumber - 1`. -/
def getZoneState (s : Controller) (zoneNumber : Nat) : ServoState :=
  if h : zoneNumber = 0 ∨ zoneNumber > s.totalZones then ServoState.ERROR
  else
    (s.zones.get ⟨zoneNumber - 1, by
      push_neg at h
      have h1 : zoneNumber ≠ 0 := h.1
      have h2 : zoneNumber ≤ s.zones.length := h.2
      omega⟩).currentState

/-- `ServoPWMController::getZoneInfo`: `none` models the `nullptr`
sentinel. -/
def getZoneInfo (s : Controller) (zoneNumber : Nat) : Option ZoneInfo :=
  if zoneNumber = 0 ∨ zoneNumber > s.totalZones then none
  else s.zones[zoneNumber - 1]?

end Controller

/-! ## Construction (`ServoPWMController::ServoPWMController` /
`initializeZones`) -/

def mkZone (i : Nat) : ZoneInfo :=
  { zoneNumber := i + 1
    servoPin := SERVO_PINS.getD i 0
    pwmChannel := i
    currentState := ServoState.UNINITIALIZED
    lastActionTime := 0
    totalIrrigationTime := 0
    isEnabled := true
    config := ZONE_CONFIGURATIONS.getD i DEFAULT_ZONE_CONFIG
    retryCount := 0 }

/-- The constructor: an invalid requested zone count falls back to
`NUM_SERVOS`; `initializeZones` then populates the zone array. -/
def mkController (numZones : Nat) : Controller :=
  let n := if numZones = 0 ∨ numZones > NUM_SERVOS then NUM_SERVOS else numZones
  { zones := (List.range n).map mkZone
    currentZone := 0
    systemState := IrrigationState.IDLE
    stateStartTime := 0
    lastStatusReport := 0
    autoCycle := false
    emergencyStop := false
    totalCyclesCompleted := 0
    totalWateringTime := 0
    systemStartTime := 0
    errLastRecovery := 0 }

/-! ## Public operations and reachability -/

/-- One public operation on the sequencer, with the `millis()` reading it
observes. -/
inductive Op where
  | initOp (now : Nat)
  | startCycle (autoRepeat : Bool) (now : Nat)
  | tick (now : Nat)
  | stopCycle (now : Nat)
  | openValve (zoneNumber duration now : Nat)
  | closeValve (zoneNumber now : Nat)
  | estopAll (now : Nat)
  | resetEstop

def Op.apply (s : Controller) : Op → Controller
  | Op.initOp now => (s.init now).2
  | Op.startCycle b now => (s.startIrrigationCycle b now).2
  | Op.tick now => s.update now
  | Op.stopCycle now => s.stopIrrigationCycle now
  | Op.openValve z d now => (s.openZoneValve z d now).2
  | Op.closeValve z now => (s.closeZoneValve z now).2
  | Op.estopAll now => s.emergencyStopAll now
  | Op.resetEstop => s.resetEmergencyStop

def runOps (s : Controller) (ops : List Op) : Controller :=
  ops.foldl Op.apply s

/-- The operations of the automatic cycle: everything except the two manual
single-zone overrides. -/
def Op.isAutomatic : Op → Prop
  | Op.openValve _ _ _ => False
  | Op.closeValve _ _ => False
  | _ => True

/-- States reachable from a freshly constructed controller by any sequence
of public operations. -/
inductive Reachable : Controller → Prop where
  | start (numZones : Nat) : Reachable (mkController numZones)
  | step (s : Controller) (o : Op) : Reachable s → Reachable (o.apply s)

/-- States reachable without the manual `openZoneValve` / `closeZoneValve`
overrides. -/
inductive ReachableAuto : Controller → Prop where
  | start (numZones : Nat) : ReachableAuto (mkController numZones)
  | step (s : Controller) (o : Op) :
      o.isAutomatic → ReachableAuto s → ReachableAuto (o.apply s)

/-- A servo state that keeps its valve's channel energized
(`ServoPWMController::isServoEnergized`): the single-valve-active
invariant is about exactly this set. -/
def ServoState.isActive : ServoState → Bool
  | ServoState.OPENING => true
  | ServoState.OPEN => true
  | ServoState.CLOSING => true
  | _ => false

/-- Zone `i` (0-based) currently holds an energized servo. -/
def Controller.zoneActiveAt (s : Controller) (i : Nat) : Prop :=
  ∃ z, s.zones[i]? = some z ∧ z.currentState.isActive = true

/-- At most one zone is in `OPENING`/`OPEN`/`CLOSING`: the single-valve
invariant. -/
def Controller.uniqActive (s : Controller) : Prop :=
  ∀ i j, s.zoneActiveAt i → s.zoneActiveAt j → i = j

/-- The only possibly-energized zone is the current one. -/
def Controller.activeOnlyCurrent (s : Controller) : Prop :=
  ∀ i, s.zoneActiveAt i → i = s.currentZone

/-- No zone is energized at all. -/
def Controller.noneActive (s : Controller) : Prop :=
  ∀ i, ¬ s.zoneActiveAt i

/-- Inductive strengthening of the single-valve invariant: while a valve is
being worked (`OPENING_VALVE`/`IRRIGATING`/`CLOSING_VALVE`) only
`currentZone` may be energized, and between zones
(`TRANSITIONING`/`COMPLETED`) everything is de-energized. -/
def InvC1 (s : Controller) : Prop :=
  s.uniqActive ∧
  ((s.systemState = IrrigationState.OPENING_VALVE ∨
    s.systemState = IrrigationState.IRRIGATING ∨
    s.systemState = IrrigationState.CLOSING_VALVE) → s.activeOnlyCurrent) ∧
  ((s.systemState = IrrigationState.TRANSITIONING ∨
    s.systemState = IrrigationState.COMPLETED) → s.noneActive)

theorem uniqActive_of_activeOnlyCurrent {s : Controller}
    (h : s.activeOnlyCurrent) : s.uniqActive := by
  intro i j hi hj
  rw [h i hi, h j hj]

theorem activeOnlyCurrent_of_noneActive {s : Controller}
    (h : s.noneActive) : s.activeOnlyCurrent := by
  intro i hi
  exact absurd hi (h i)

theorem invC1_of_noneActive {s : Controller} (h : s.noneActive) : InvC1 s :=
  ⟨uniqActive_of_activeOnlyCurrent (activeOnlyCurrent_of_noneActive h),
   fun _ => activeOnlyCurrent_of_noneActive h, fun _ => h⟩

theorem invC1_congr {s s' : Controller} (h1 : s'.zones = s.zones)
    (h2 : s'.systemState = s.systemState) (h3 : s'.currentZone = s.currentZone)
    (h : InvC1 s) : InvC1 s' := by
  have hact : ∀ i, s'.zoneActiveAt i ↔ s.zoneActiveAt i := by
    intro i
    unfold Controller.zoneActiveAt
    rw [h1]
  obtain ⟨hu, ho, hn⟩ := h
  refine ⟨fun i j hi hj => hu i j ((hact i).mp hi) ((hact j).mp hj), ?_, ?_⟩
  · intro hst i hi
    rw [h3]
    exact ho (by rw [← h2]; exact hst) i ((hact i).mp hi)
  · intro hst i hi
    exact hn (by rw [← h2]; exact hst) i ((hact i).mp hi)

/-- Zones produced by a state-preserving per-zone map keep the activity of
the original zone. -/
theorem zoneActiveAt_map_iff {s : Controller} (s' : Controller)
    {f : ZoneInfo → ZoneInfo} (hz : s'.zones = s.zones.map f)
    (hf : ∀ z, (f z).currentState.isActive = z.currentState.isActive) (i : Nat) :
    s'.zoneActiveAt i ↔ s.zoneActiveAt i := by
  unfold Controller.zoneActiveAt
  rw [hz, List.getElem?_map]
  constructor
  · rintro ⟨z, hget, hact⟩
    rcases Option.map_eq_some'.mp hget with ⟨w, hw, rfl⟩
    exact ⟨w, hw, by rw [← hf w]; exact hact⟩
  · rintro ⟨z, hget, hact⟩
    exact ⟨f z, by rw [hget]; rfl, by rw [hf z]; exact hact⟩

/-- Zones produced by an always-de-energizing map are all inactive. -/
theorem noneActive_of_map {s s' : Controller} {f : ZoneInfo → ZoneInfo}
    (hz : s'.zones = s.zones.map f)
    (hf : ∀ z, (f z).currentState.isActive = false) : s'.noneActive := by
  rintro i ⟨z, hget, hact⟩
  rw [hz, List.getElem?_map] at hget
  rcases Option.map_eq_some'.mp hget with ⟨w, _, rfl⟩
  rw [hf w] at hact
  exact Bool.false_ne_true hact

theorem getElem?_modifyIdx (f : α → α) (k i : Nat) (l : List α) :
    (modifyIdx f k l)[i]? =
      if i = k then l[i]?.map f else l[i]? := by
  induction l generalizing k i with
  | nil => cases k <;> cases i <;> simp [modifyIdx]
  | cons a as ih =>
    cases k with
    | zero => cases i <;> simp [modifyIdx]
    | succ m =>
      cases i with
      | zero => simp [modifyIdx]
      | succ j => simpa [modifyIdx, Nat.succ_eq_add_one] using ih m j

/-- Activity after an in-place single-zone update, away from the updated
index. -/
theorem zoneActiveAt_modifyZone_ne {s : Controller} {k : Nat}
    {f : ZoneInfo → ZoneInfo} (s' : Controller)
    (hz : s'.zones = modifyIdx f k s.zones) (i : Nat) (hik : i ≠ k) :
    (s'.zoneActiveAt i ↔ s.zoneActiveAt i) := by
  unfold Controller.zoneActiveAt
  rw [hz, getElem?_modifyIdx, if_neg hik]

/-- Activity at the updated index comes from the updated zone. -/
theorem zoneActiveAt_modifyZone_self {s : Controller} {k : Nat}
    {f : ZoneInfo → ZoneInfo} (s' : Controller)
    (hz : s'.zones = modifyIdx f k s.zones) (hact : s'.zoneActiveAt k) :
    ∃ z, s.zones[k]? = some z ∧ (f z).currentState.isActive = true := by
  obtain ⟨z, hget, hzact⟩ := hact
  rw [hz, getElem?_modifyIdx, if_pos rfl] at hget
  rcases Option.map_eq_some'.mp hget with ⟨w, hw, rfl⟩
  exact ⟨w, hw, hzact⟩

/-! ### Preservation of the single-valve invariant, operation by operation -/

theorem noneActive_emergencyStopAll (s : Controller) (now : Nat) :
    (s.emergencyStopAll now).noneActive :=
  noneActive_of_map rfl (fun _ => rfl)

theorem invC1_emergencyStopAll (s : Controller) (now : Nat) :
    InvC1 (s.emergencyStopAll now) :=
  invC1_of_noneActive (noneActive_emergencyStopAll s now)

theorem invC1_resetEmergencyStop {s : Controller} (h : InvC1 s) :
    InvC1 s.resetEmergencyStop := by
  unfold Controller.resetEmergencyStop
  split
  · exact h
  · exact invC1_of_noneActive (noneActive_of_map rfl (fun _ => rfl))

theorem invC1_init {s : Controller} (now : Nat) (h : InvC1 s) :
    InvC1 (s.init now).2 := by
  unfold Controller.init
  split
  · exact h
  · split
    · exact h
    · exact invC1_of_noneActive (noneActive_of_map rfl (fun _ => rfl))

theorem invC1_startIrrigationCycle {s : Controller} (b : Bool) (now : Nat)
    (h : InvC1 s) : InvC1 (s.startIrrigationCycle b now).2 := by
  unfold Controller.startIrrigationCycle
  split
  · exact h
  · split
    · exact h
    · split
      · exact h
      · refine ⟨fun i j hi hj => h.1 i j hi hj, ?_, ?_⟩
        · rintro (hst | hst | hst) <;> simp at hst
        · rintro (hst | hst) <;> simp at hst

theorem invC1_mkController (numZones : Nat) : InvC1 (mkController numZones) := by
  apply invC1_of_noneActive
  rintro i ⟨z, hget, hact⟩
  unfold mkController at hget
  simp only [List.getElem?_map] at hget
  rcases Option.map_eq_some'.mp hget with ⟨w, _, rfl⟩
  exact Bool.false_ne_true hact

theorem stopCloseZone_isActive (now : Nat) (z : ZoneInfo) :
    (Controller.stopCloseZone now z).currentState.isActive
      = z.currentState.isActive := by
  unfold Controller.stopCloseZone
  split
  · rename_i hz
    rcases hz with hz | hz <;> rw [hz] <;> rfl
  · rfl

theorem moveServoToAngle_out {s : Controller} {zi : Nat} (a now : Nat)
    (h : zi ≥ s.totalZones) : s.moveServoToAngle zi a now = (false, s) := by
  unfold Controller.moveServoToAngle
  rw [if_pos h]

theorem moveServoToAngle_in {s : Controller} {zi : Nat} (a now : Nat)
    (h : zi < s.totalZones) :
    s.moveServoToAngle zi a now =
      (true, s.modifyZone zi fun z =>
        { z with
          currentState :=
            if (if a > 180 then 180 else a) = SERVO_CLOSED_ANGLE then
              ServoState.CLOSING
            else ServoState.OPENING
          lastActionTime := now }) := by
  unfold Controller.moveServoToAngle
  rw [if_neg (by omega)]

theorem handleServoError_out {s : Controller} {zi : Nat} (now : Nat)
    (h : zi ≥ s.totalZones) : s.handleServoError zi now = (false, s) := by
  unfold Controller.handleServoError
  rw [if_pos h]

theorem totalZones_modifyZone (s : Controller) (k : Nat) (f : ZoneInfo → ZoneInfo) :
    (s.modifyZone k f).totalZones = s.totalZones :=
  length_modifyIdx f k s.zones

theorem zoneActiveAt_of_getElem?_eq {s s' : Controller} (i : Nat)
    (h : s'.zones[i]? = s.zones[i]?) :
    s'.zoneActiveAt i ↔ s.zoneActiveAt i := by
  unfold Controller.zoneActiveAt
  rw [h]

theorem getElem?_modifyZone_ne (s : Controller) (k : Nat) (f : ZoneInfo → ZoneInfo)
    (i : Nat) (h : i ≠ k) :
    (s.modifyZone k f).zones[i]? = s.zones[i]? := by
  unfold Controller.modifyZone
  exact (getElem?_modifyIdx f k i s.zones).trans (if_neg h)

/-- If the zones differ from `s` only at index `k` and only `k` could be
active in `s`, then only `k` can be active afterwards. -/
theorem activeOnlyAt_of_eq_off {s s' : Controller} (k : Nat)
    (hoff : ∀ i, i ≠ k → s'.zones[i]? = s.zones[i]?)
    (hk : ∀ i, s.zoneActiveAt i → i = k) :
    ∀ i, s'.zoneActiveAt i → i = k := by
  intro i hi
  by_cases hik : i = k
  · exact hik
  · obtain ⟨z, hget, hact⟩ := hi
    rw [hoff i hik] at hget
    exact hk i ⟨z, hget, hact⟩

theorem noneActive_congr {s s' : Controller} (hz : s'.zones = s.zones)
    (h : s.noneActive) : s'.noneActive := by
  intro i hi
  refine h i ?_
  obtain ⟨z, hget, hact⟩ := hi
  rw [hz] at hget
  exact ⟨z, hget, hact⟩

theorem getElem?_modifyZone2_ne (s : Controller) (k : Nat) (f g : ZoneInfo → ZoneInfo)
    (i : Nat) (h : i ≠ k) :
    (((s.modifyZone k f).modifyZone k g)).zones[i]? = s.zones[i]? := by
  rw [getElem?_modifyZone_ne _ _ _ i h, getElem?_modifyZone_ne _ _ _ i h]

theorem invC1_of_activeOnlyAt {s : Controller}
    (hk : ∀ i, s.zoneActiveAt i → i = s.currentZone)
    (h1 : s.systemState ≠ IrrigationState.TRANSITIONING)
    (h2 : s.systemState ≠ IrrigationState.COMPLETED) : InvC1 s := by
  refine ⟨fun i j hi hj => by rw [hk i hi, hk j hj], fun _ => hk, ?_⟩
  rintro (hst | hst)
  · exact absurd hst h1
  · exact absurd hst h2

theorem initCloseZone_closed (now : Nat) (z : ZoneInfo) :
    (Controller.initCloseZone now z).currentState = ServoState.CLOSED := by
  unfold Controller.initCloseZone
  split
  · rfl
  · rename_i hz
    exact not_not.mp hz

theorem noneActive_handleInitializingState (s : Controller) (now : Nat) :
    (s.handleInitializingState now).noneActive := by
  unfold Controller.handleInitializingState
  split
  all_goals
    refine noneActive_of_map rfl fun z => ?_
    rw [initCloseZone_closed]
    rfl

theorem invC1_handleInitializingState (s : Controller) (now : Nat) :
    InvC1 (s.handleInitializingState now) :=
  invC1_of_noneActive (noneActive_handleInitializingState s now)

theorem invC1_stopIrrigationCycle {s : Controller} (now : Nat) (h : InvC1 s) :
    InvC1 (s.stopIrrigationCycle now) := by
  unfold Controller.stopIrrigationCycle
  split
  · rename_i hst
    -- graceful-stop branch: the state becomes CLOSING_VALVE with the same
    -- current zone, and zone activity is unchanged up to OPEN/OPENING ↦ CLOSING
    have hcur : s.activeOnlyCurrent := h.2.1 (by
      rcases hst with hst | hst
      · exact Or.inr (Or.inl hst)
      · exact Or.inl hst)
    have hoc : ∀ i, Controller.zoneActiveAt
        { s with
          systemState := IrrigationState.CLOSING_VALVE
          stateStartTime := now
          zones := s.zones.map (Controller.stopCloseZone now) } i →
        i = s.currentZone := by
      intro i hi
      exact hcur i ((zoneActiveAt_map_iff _ rfl (stopCloseZone_isActive now) i).mp hi)
    refine ⟨fun i j hi hj => by rw [hoc i hi, hoc j hj], fun _ => hoc, ?_⟩
    · rintro (hst2 | hst2) <;> simp at hst2
  · -- direct-to-IDLE branch
    refine ⟨?_, ?_, ?_⟩
    · intro i j hi hj
      refine h.1 i j ?_ ?_
      · exact (zoneActiveAt_map_iff _ rfl (stopCloseZone_isActive now) i).mp hi
      · exact (zoneActiveAt_map_iff _ rfl (stopCloseZone_isActive now) j).mp hj
    · rintro (hst | hst | hst) <;> simp at hst
    · rintro (hst | hst) <;> simp at hst

theorem invC1_handleOpeningValveState {s : Controller} (now : Nat)
    (hst : s.systemState = IrrigationState.OPENING_VALVE) (h : InvC1 s) :
    InvC1 (s.handleOpeningValveState now) := by
  have hoc : s.activeOnlyCurrent := h.2.1 (Or.inl hst)
  unfold Controller.handleOpeningValveState
  dsimp only
  by_cases hlt : s.currentZone < s.totalZones
  · rw [moveServoToAngle_in _ now hlt]
    dsimp only
    rw [if_pos rfl]
    refine invC1_of_activeOnlyAt ?_ (by simp) (by simp)
    refine activeOnlyAt_of_eq_off (s := s) s.currentZone ?_ hoc
    intro i hi
    simp [Controller.modifyZone, getElem?_modifyIdx, hi]
  · rw [moveServoToAngle_out _ now (Nat.le_of_not_lt hlt)]
    dsimp only
    rw [if_neg (by simp)]
    split
    · rw [(handleServoError_out now (Nat.le_of_not_lt hlt) :
        s.handleServoError s.currentZone now = (false, s))]
      exact h
    · exact h

theorem invC1_handleIrrigatingState {s : Controller} (now : Nat)
    (hst : s.systemState = IrrigationState.IRRIGATING) (h : InvC1 s) :
    InvC1 (s.handleIrrigatingState now) := by
  have hoc : s.activeOnlyCurrent := h.2.1 (Or.inr (Or.inl hst))
  unfold Controller.handleIrrigatingState
  dsimp only
  by_cases hc1 : (now - s.stateStartTime) / 1000 ≥
      (s.zones[s.currentZone]?.getD default).config.irrigationTime
  all_goals
    first
      | simp only [if_pos hc1]
      | simp only [if_neg hc1]
    split
    · by_cases hlt : s.currentZone < s.totalZones
      · rw [moveServoToAngle_in _ now (show _ < _ by
          simpa [Controller.totalZones, Controller.modifyZone, length_modifyIdx] using hlt)]
        dsimp only
        refine invC1_of_activeOnlyAt ?_
          (by simp [Controller.modifyZone, hst]) (by simp [Controller.modifyZone, hst])
        refine activeOnlyAt_of_eq_off (s := s) s.currentZone ?_ hoc
        intro i hi
        simp [Controller.modifyZone, getElem?_modifyIdx, hi]
      · rw [moveServoToAngle_out _ now (show _ ≥ _ by
          simpa [Controller.totalZones, Controller.modifyZone, length_modifyIdx] using
            Nat.le_of_not_lt hlt)]
        dsimp only
        refine invC1_of_activeOnlyAt ?_
          (by simp [Controller.modifyZone, hst]) (by simp [Controller.modifyZone, hst])
        refine activeOnlyAt_of_eq_off (s := s) s.currentZone ?_ hoc
        intro i hi
        simp [Controller.modifyZone, getElem?_modifyIdx, hi]
    · refine invC1_of_activeOnlyAt ?_
        (by simp [Controller.modifyZone, hst]) (by simp [Controller.modifyZone, hst])
      refine activeOnlyAt_of_eq_off (s := s) s.currentZone ?_ hoc
      intro i hi
      simp [Controller.modifyZone, getElem?_modifyIdx, hi]



theorem moveServoToAngle_closed_in {s : Controller} {zi : Nat} (now : Nat)
    (h : zi < s.totalZones) :
    s.moveServoToAngle zi SERVO_CLOSED_ANGLE now =
      (true, s.modifyZone zi fun z =>
        { z with currentState := ServoState.CLOSING, lastActionTime := now }) := by
  rw [moveServoToAngle_in _ now h]
  norm_num [SERVO_CLOSED_ANGLE]

theorem invC1_handleClosingValveState {s : Controller} (now : Nat)
    (hst : s.systemState = IrrigationState.CLOSING_VALVE) (h : InvC1 s) :
    InvC1 (s.handleClosingValveState now) := by
  have hoc : s.activeOnlyCurrent := h.2.1 (Or.inr (Or.inr hst))
  unfold Controller.handleClosingValveState
  dsimp only
  by_cases hlt : s.currentZone < s.totalZones
  · rw [moveServoToAngle_closed_in now hlt]
    dsimp only
    rw [if_pos rfl]
    split
    all_goals
      refine invC1_of_noneActive (fun i hi => ?_)
      have hik := activeOnlyAt_of_eq_off (s := s) s.currentZone
        (fun j hj => by simp [Controller.modifyZone, getElem?_modifyIdx, hj]) hoc i hi
      subst hik
      obtain ⟨z, hget, hact⟩ := hi
      simp [Controller.modifyZone, getElem?_modifyIdx, Option.map_eq_some'] at hget
      obtain ⟨w, hw, rfl⟩ := hget
      simp [ServoState.isActive] at hact
  · rw [moveServoToAngle_out _ now (Nat.le_of_not_lt hlt)]
    dsimp only
    rw [if_neg (by simp)]
    split
    · rw [(handleServoError_out now (Nat.le_of_not_lt hlt) :
        s.handleServoError s.currentZone now = (false, s))]
      exact h
    · exact h

theorem invC1_handleTransitioningState {s : Controller} (now : Nat)
    (hst : s.systemState = IrrigationState.TRANSITIONING) (h : InvC1 s) :
    InvC1 (s.handleTransitioningState now) := by
  have hna : s.noneActive := h.2.2 (Or.inl hst)
  unfold Controller.handleTransitioningState
  split
  · exact invC1_of_noneActive (noneActive_congr rfl hna)
  · exact h

theorem invC1_handleCompletedState {s : Controller} (now : Nat)
    (hst : s.systemState = IrrigationState.COMPLETED) (h : InvC1 s) :
    InvC1 (s.handleCompletedState now) := by
  have hna : s.noneActive := h.2.2 (Or.inr hst)
  unfold Controller.handleCompletedState
  split
  · split
    · exact invC1_of_noneActive (noneActive_congr rfl hna)
    · exact h
  · exact invC1_of_noneActive (noneActive_congr rfl hna)

theorem noneActive_init {s : Controller} (now : Nat) (h : s.noneActive) :
    (s.init now).2.noneActive := by
  unfold Controller.init
  split
  · exact h
  · split
    · exact h
    · exact noneActive_of_map rfl (fun _ => rfl)

theorem invC1_handleErrorState {s : Controller} (now : Nat) (h : InvC1 s) :
    InvC1 (s.handleErrorState now) := by
  unfold Controller.handleErrorState
  dsimp only
  split
  · split
    · refine invC1_of_noneActive (noneActive_congr rfl ?_)
      exact noneActive_init now (noneActive_of_map rfl (fun _ => rfl))
    · refine invC1_of_noneActive (noneActive_congr rfl ?_)
      exact noneActive_emergencyStopAll _ now
  · exact h

theorem invC1_update {s : Controller} (now : Nat) (h : InvC1 s) :
    InvC1 (s.update now) := by
  unfold Controller.update
  split
  · exact h
  · dsimp only
    by_cases hrep : now - s.lastStatusReport ≥ STATUS_REPORT_INTERVAL_MS
    all_goals
      first
        | simp only [if_pos hrep]
        | simp only [if_neg hrep]
    all_goals
      split
      case _ heq => exact invC1_congr rfl (by rw [heq]) rfl h
      case _ heq => exact invC1_handleInitializingState _ now
      case _ heq => exact invC1_handleOpeningValveState now heq (invC1_congr rfl rfl rfl h)
      case _ heq => exact invC1_handleIrrigatingState now heq (invC1_congr rfl rfl rfl h)
      case _ heq => exact invC1_handleClosingValveState now heq (invC1_congr rfl rfl rfl h)
      case _ heq => exact invC1_handleTransitioningState now heq (invC1_congr rfl rfl rfl h)
      case _ heq => exact invC1_handleCompletedState now heq (invC1_congr rfl rfl rfl h)
      case _ heq => exact invC1_handleErrorState now (invC1_congr rfl rfl rfl h)

theorem invC1_reachableAuto : ∀ {s : Controller}, ReachableAuto s → InvC1 s := by
  intro s h
  induction h with
  | start numZones => exact invC1_mkController numZones
  | step s o ho hs ih =>
    cases o with
    | initOp now => exact invC1_init now ih
    | startCycle b now => exact invC1_startIrrigationCycle b now ih
    | tick now => exact invC1_update now ih
    | stopCycle now => exact invC1_stopIrrigationCycle now ih
    | openValve z d now => exact ho.elim
    | closeValve z now => exact ho.elim
    | estopAll now => exact invC1_emergencyStopAll _ now
    | resetEstop => exact invC1_resetEmergencyStop ih

/-- Inductive form of the emergency-stop zone invariant actually maintained
by the code: while the emergency flag is set every zone is `CLOSED`,
`CLOSING` (a manual `closeZoneValve` is not gated) or `ERROR`. -/
def InvC2 (s : Controller) : Prop :=
  s.emergencyStop = true → ∀ (i : Nat) (z : ZoneInfo), s.zones[i]? = some z →
    z.currentState = ServoState.CLOSED ∨ z.currentState = ServoState.CLOSING ∨
    z.currentState = ServoState.ERROR

theorem invC2_vacuous {s : Controller} (h : s.emergencyStop = false) : InvC2 s := by
  intro hem
  rw [h] at hem
  exact absurd hem (by decide)

theorem invC2_allClosed {s : Controller}
    (h : ∀ (i : Nat) (z : ZoneInfo), s.zones[i]? = some z → z.currentState = ServoState.CLOSED) :
    InvC2 s :=
  fun _ i z hg => Or.inl (h i z hg)

theorem allClosed_of_map {s s' : Controller} {f : ZoneInfo → ZoneInfo}
    (hz : s'.zones = s.zones.map f)
    (hf : ∀ z, (f z).currentState = ServoState.CLOSED) :
    ∀ (i : Nat) (z : ZoneInfo), s'.zones[i]? = some z → z.currentState = ServoState.CLOSED := by
  intro i z hget
  rw [hz, List.getElem?_map] at hget
  rcases Option.map_eq_some'.mp hget with ⟨w, _, rfl⟩
  exact hf w

theorem invC2_emergencyStopAll (s : Controller) (now : Nat) :
    InvC2 (s.emergencyStopAll now) :=
  invC2_allClosed (allClosed_of_map rfl (fun _ => rfl))

theorem invC2_mkController (numZones : Nat) : InvC2 (mkController numZones) := by
  apply invC2_vacuous
  simp [mkController]

theorem invC2_resetEmergencyStop {s : Controller} (h : InvC2 s) :
    InvC2 s.resetEmergencyStop := by
  unfold Controller.resetEmergencyStop
  split
  · exact h
  · exact invC2_vacuous (by simp)

theorem invC2_init {s : Controller} (now : Nat) (h : InvC2 s) :
    InvC2 (s.init now).2 := by
  unfold Controller.init
  split
  · exact h
  · split
    · exact h
    · exact invC2_vacuous (by simp)

theorem invC2_startIrrigationCycle {s : Controller} (b : Bool) (now : Nat)
    (h : InvC2 s) : InvC2 (s.startIrrigationCycle b now).2 := by
  unfold Controller.startIrrigationCycle
  split
  · exact h
  · split
    · exact h
    · split
      · exact h
      · rename_i hem _
        exact invC2_vacuous (by simpa using Bool.not_eq_true _ |>.mp hem)

theorem invC2_stopIrrigationCycle {s : Controller} (now : Nat) (h : InvC2 s) :
    InvC2 (s.stopIrrigationCycle now) := by
  have key : ∀ (s' : Controller), s'.zones = s.zones.map (Controller.stopCloseZone now) →
      s'.emergencyStop = s.emergencyStop → InvC2 s' := by
    intro s' hz hem1 hem i z hget
    rw [hz, List.getElem?_map] at hget
    rcases Option.map_eq_some'.mp hget with ⟨w, hw, rfl⟩
    unfold Controller.stopCloseZone
    split
    · right; left; rfl
    · exact h (hem1 ▸ hem) i w hw
  unfold Controller.stopIrrigationCycle
  split
  · exact key _ rfl rfl
  · exact key _ rfl rfl

theorem invC2_openZoneValve {s : Controller} (n d now : Nat) (h : InvC2 s) :
    InvC2 (s.openZoneValve n d now).2 := by
  unfold Controller.openZoneValve
  split
  · exact h
  · split
    · exact h
    · rename_i hem
      dsimp only
      split
      · refine invC2_vacuous ?_
        simp [Controller.moveServoToAngle, Controller.modifyZone]
        split <;> simpa using Bool.not_eq_true _ |>.mp hem
      · refine invC2_vacuous ?_
        simp [Controller.moveServoToAngle]
        split <;> simpa using Bool.not_eq_true _ |>.mp hem

theorem invC2_closeZoneValve {s : Controller} (n now : Nat) (h : InvC2 s) :
    InvC2 (s.closeZoneValve n now).2 := by
  unfold Controller.closeZoneValve
  split
  · exact h
  · rename_i hval
    have hidx : n - 1 < s.totalZones := by
      push_neg at hval
      unfold Controller.totalZones
      have h1 := hval.1
      have h2 := hval.2
      unfold Controller.totalZones at h2
      omega
    dsimp only
    rw [moveServoToAngle_closed_in now hidx]
    dsimp only
    rw [if_pos rfl]
    intro hem i z hget
    simp only [Controller.modifyZone] at hget hem
    rw [getElem?_modifyIdx] at hget
    by_cases hik : i = n - 1
    · rw [if_pos hik, getElem?_modifyIdx, if_pos hik] at hget
      simp only [Option.map_map] at hget
      rcases Option.map_eq_some'.mp hget with ⟨w, hw, rfl⟩
      right; left; rfl
    · rw [if_neg hik, getElem?_modifyIdx, if_neg hik] at hget
      exact h hem i z hget



theorem invC2_congr {s s' : Controller} (hz : s'.zones = s.zones)
    (he : s'.emergencyStop = s.emergencyStop) (h : InvC2 s) : InvC2 s' := by
  intro hem i z hget
  rw [hz] at hget
  exact h (he ▸ hem) i z hget

theorem invC2_handleInitializingState {s : Controller} (now : Nat)
    (hem : s.emergencyStop = false) : InvC2 (s.handleInitializingState now) := by
  unfold Controller.handleInitializingState
  split
  · exact invC2_vacuous (by simp [hem])
  · exact invC2_vacuous (by simp [hem])

theorem invC2_handleOpeningValveState {s : Controller} (now : Nat)
    (hem : s.emergencyStop = false) : InvC2 (s.handleOpeningValveState now) := by
  unfold Controller.handleOpeningValveState
  dsimp only
  by_cases hlt : s.currentZone < s.totalZones
  · rw [moveServoToAngle_in _ now hlt]
    dsimp only
    rw [if_pos rfl]
    exact invC2_vacuous (by simp [Controller.modifyZone, hem])
  · rw [moveServoToAngle_out _ now (Nat.le_of_not_lt hlt)]
    dsimp only
    rw [if_neg (by simp)]
    split
    · rw [(handleServoError_out now (Nat.le_of_not_lt hlt) :
        s.handleServoError s.currentZone now = (false, s))]
      exact invC2_vacuous hem
    · exact invC2_vacuous hem

theorem invC2_handleIrrigatingState {s : Controller} (now : Nat)
    (hem : s.emergencyStop = false) : InvC2 (s.handleIrrigatingState now) := by
  unfold Controller.handleIrrigatingState
  dsimp only
  by_cases hc1 : (now - s.stateStartTime) / 1000 ≥
      (s.zones[s.currentZone]?.getD default).config.irrigationTime
  all_goals
    first
      | simp only [if_pos hc1]
      | simp only [if_neg hc1]
    split
    · by_cases hlt : s.currentZone < s.totalZones
      · rw [moveServoToAngle_in _ now (show _ < _ by
          simpa [Controller.totalZones, Controller.modifyZone, length_modifyIdx] using hlt)]
        dsimp only
        exact invC2_vacuous (by simp [Controller.modifyZone, hem])
      · rw [moveServoToAngle_out _ now (show _ ≥ _ by
          simpa [Controller.totalZones, Controller.modifyZone, length_modifyIdx] using
            Nat.le_of_not_lt hlt)]
        dsimp only
        exact invC2_vacuous (by simp [Controller.modifyZone, hem])
    · exact invC2_vacuous (by simp [Controller.modifyZone, hem])

theorem invC2_handleClosingValveState {s : Controller} (now : Nat)
    (hem : s.emergencyStop = false) : InvC2 (s.handleClosingValveState now) := by
  unfold Controller.handleClosingValveState
  dsimp only
  by_cases hlt : s.currentZone < s.totalZones
  · rw [moveServoToAngle_closed_in now hlt]
    dsimp only
    rw [if_pos rfl]
    split
    · exact invC2_vacuous (by simp [Controller.modifyZone, hem])
    · exact invC2_vacuous (by simp [Controller.modifyZone, hem])
  · rw [moveServoToAngle_out _ now (Nat.le_of_not_lt hlt)]
    dsimp only
    rw [if_neg (by simp)]
    split
    · rw [(handleServoError_out now (Nat.le_of_not_lt hlt) :
        s.handleServoError s.currentZone now = (false, s))]
      exact invC2_vacuous hem
    · exact invC2_vacuous hem

theorem invC2_handleTransitioningState {s : Controller} (now : Nat)
    (hem : s.emergencyStop = false) : InvC2 (s.handleTransitioningState now) := by
  unfold Controller.handleTransitioningState
  split
  · exact invC2_vacuous (by simp [hem])
  · exact invC2_vacuous hem

theorem invC2_handleCompletedState {s : Controller} (now : Nat)
    (hem : s.emergencyStop = false) : InvC2 (s.handleCompletedState now) := by
  unfold Controller.handleCompletedState
  split
  · split
    · exact invC2_vacuous (by simp [hem])
    · exact invC2_vacuous hem
  · exact invC2_vacuous (by simp [hem])

theorem invC2_init_of_false {s : Controller} (now : Nat)
    (hem : s.emergencyStop = false) : InvC2 (s.init now).2 := by
  unfold Controller.init
  split
  · exact invC2_vacuous hem
  · split
    · exact invC2_vacuous hem
    · exact invC2_vacuous (by simp)

theorem invC2_handleErrorState {s : Controller} (now : Nat)
    (hem : s.emergencyStop = false) : InvC2 (s.handleErrorState now) := by
  unfold Controller.handleErrorState
  dsimp only
  split
  · split
    · refine invC2_congr rfl rfl ?_
      exact invC2_init_of_false now (by simp [hem])
    · refine invC2_congr rfl rfl ?_
      exact invC2_emergencyStopAll _ now
  · exact invC2_vacuous hem

theorem invC2_update {s : Controller} (now : Nat) (h : InvC2 s) :
    InvC2 (s.update now) := by
  unfold Controller.update
  split
  · exact h
  · rename_i hcond
    have hem : s.emergencyStop = false := by
      revert hcond
      cases s.emergencyStop <;> simp
    dsimp only
    by_cases hrep : now - s.lastStatusReport ≥ STATUS_REPORT_INTERVAL_MS
    all_goals
      first
        | simp only [if_pos hrep]
        | simp only [if_neg hrep]
    all_goals
      split
      case _ heq => exact invC2_vacuous (by simp [hem])
      case _ heq => exact invC2_handleInitializingState now (by simp [hem])
      case _ heq => exact invC2_handleOpeningValveState now (by simp [hem])
      case _ heq => exact invC2_handleIrrigatingState now (by simp [hem])
      case _ heq => exact invC2_handleClosingValveState now (by simp [hem])
      case _ heq => exact invC2_handleTransitioningState now (by simp [hem])
      case _ heq => exact invC2_handleCompletedState now (by simp [hem])
      case _ heq => exact invC2_handleErrorState now (by simp [hem])

theorem invC2_reachable : ∀ {s : Controller}, Reachable s → InvC2 s := by
  intro s h
  induction h with
  | start numZones => exact invC2_mkController numZones
  | step s o hs ih =>
    cases o with
    | initOp now => exact invC2_init now ih
    | startCycle b now => exact invC2_startIrrigationCycle b now ih
    | tick now => exact invC2_update now ih
    | stopCycle now => exact invC2_stopIrrigationCycle now ih
    | openValve z d now => exact invC2_openZoneValve z d now ih
    | closeValve z now => exact invC2_closeZoneValve z now ih
    | estopAll now => exact invC2_emergencyStopAll _ now
    | resetEstop => exact invC2_resetEmergencyStop ih

/-- The number of zones whose servo is energized
(`OPENING`/`OPEN`/`CLOSING`). -/
def Controller.countActive (s : Controller) : Nat :=
  (s.zones.filter fun z => z.currentState.isActive).length

theorem filter_length_le_one {α : Type} (p : α → Bool) (l : List α)
    (h : ∀ i j (hi : i < l.length) (hj : j < l.length),
      p (l.get ⟨i, hi⟩) = true → p (l.get ⟨j, hj⟩) = true → i = j) :
    (l.filter p).length ≤ 1 := by
  induction l with
  | nil => simp
  | cons a t ih =>
    by_cases hpa : p a = true
    · have ht : t.filter p = [] := by
        rw [List.filter_eq_nil]
        intro x hx hpx
        obtain ⟨⟨j, hj⟩, rfl⟩ := List.mem_iff_get.mp hx
        have h0 := h 0 (j + 1) (Nat.succ_pos _) (Nat.succ_lt_succ hj) hpa hpx
        omega
      rw [List.filter_cons_of_pos hpa, ht]
      simp
    · rw [List.filter_cons_of_neg hpa]
      refine ih ?_
      intro i j hi hj hpi hpj
      have := h (i + 1) (j + 1) (Nat.succ_lt_succ hi) (Nat.succ_lt_succ hj) hpi hpj
      omega

theorem countActive_le_one {s : Controller} (h : s.uniqActive) :
    s.countActive ≤ 1 := by
  refine filter_length_le_one _ _ ?_
  intro i j hi hj hpi hpj
  refine h i j ⟨_, List.getElem?_eq_getElem hi, hpi⟩
    ⟨_, List.getElem?_eq_getElem hj, hpj⟩

/-- C1 (amended): under the operations of the automatic cycle (no manual
single-zone overrides) at most one zone is ever in
`OPENING`/`OPEN`/`CLOSING`. -/
theorem singleValve_auto_invariant {s : Controller} (h : ReachableAuto s) :
    s.countActive ≤ 1 :=
  countActive_le_one (invC1_reachableAuto h).1

theorem singleValve_auto_invariant_witness :
    (runOps (mkController 5)
      [Op.initOp 0, Op.startCycle false 100, Op.tick 200, Op.tick 300]).countActive ≤ 1 :=
  singleValve_auto_invariant
    (ReachableAuto.step _ (Op.tick 300) trivial (ReachableAuto.step _ (Op.tick 200) trivial
      (ReachableAuto.step _ (Op.startCycle false 100) trivial
        (ReachableAuto.step _ (Op.initOp 0) trivial (ReachableAuto.start 5)))))

/-- C1 counterexample: after `init`, two manual `openZoneValve` calls leave
both zone 1 and zone 2 in `OPENING`, so a reachable state has two
simultaneously energized zones. -/
theorem singleValve_counterexample :
    Reachable (runOps (mkController 5)
      [Op.initOp 0, Op.openValve 1 0 10, Op.openValve 2 0 20]) ∧
    (runOps (mkController 5)
      [Op.initOp 0, Op.openValve 1 0 10, Op.openValve 2 0 20]).countActive = 2 ∧
    (runOps (mkController 5)
      [Op.initOp 0, Op.openValve 1 0 10, Op.openValve 2 0 20]).getZoneState 1
        = ServoState.OPENING ∧
    (runOps (mkController 5)
      [Op.initOp 0, Op.openValve 1 0 10, Op.openValve 2 0 20]).getZoneState 2
        = ServoState.OPENING := by
  refine ⟨?_, by decide, by decide, by decide⟩
  exact Reachable.step _ (Op.openValve 2 0 20) (Reachable.step _ (Op.openValve 1 0 10)
    (Reachable.step _ (Op.initOp 0) (Reachable.start 5)))



/-- C2 (amended): in every reachable state with the emergency stop set,
every zone is `CLOSED`, `CLOSING`, or `ERROR` (the `CLOSING` case arises
because `closeZoneValve` is not gated on the emergency flag). -/
theorem emergencyStop_zones_invariant {s : Controller} (h : Reachable s)
    (hem : s.emergencyStop = true) :
    ∀ z ∈ s.zones, z.currentState = ServoState.CLOSED ∨
      z.currentState = ServoState.CLOSING ∨ z.currentState = ServoState.ERROR := by
  intro z hz
  obtain ⟨i, hget⟩ := List.mem_iff_getElem?.mp hz
  exact invC2_reachable h hem i z hget

theorem emergencyStop_zones_invariant_witness :
    ((runOps (mkController 5) [Op.initOp 0, Op.estopAll 10]).zones.getD 0
        default).currentState = ServoState.CLOSED ∨
    ((runOps (mkController 5) [Op.initOp 0, Op.estopAll 10]).zones.getD 0
        default).currentState = ServoState.CLOSING ∨
    ((runOps (mkController 5) [Op.initOp 0, Op.estopAll 10]).zones.getD 0
        default).currentState = ServoState.ERROR :=
  emergencyStop_zones_invariant
    (Reachable.step _ (Op.estopAll 10) (Reachable.step _ (Op.initOp 0) (Reachable.start 5)))
    (by decide) _ (by decide)

/-- C2 counterexample: after an emergency stop, a manual `closeZoneValve`
(which is not gated on `emergencyStop`) puts zone 1 into `CLOSING` while
the emergency flag is still set, so the claimed `{CLOSED, ERROR}` set is
wrong. -/
theorem emergencyStop_zones_counterexample :
    Reachable (runOps (mkController 5)
      [Op.initOp 0, Op.estopAll 10, Op.closeValve 1 20]) ∧
    (runOps (mkController 5)
      [Op.initOp 0, Op.estopAll 10, Op.closeValve 1 20]).emergencyStop = true ∧
    (runOps (mkController 5)
      [Op.initOp 0, Op.estopAll 10, Op.closeValve 1 20]).getZoneState 1
        = ServoState.CLOSING ∧
    ¬ ((runOps (mkController 5)
      [Op.initOp 0, Op.estopAll 10, Op.closeValve 1 20]).getZoneState 1
          = ServoState.CLOSED ∨
       (runOps (mkController 5)
      [Op.initOp 0, Op.estopAll 10, Op.closeValve 1 20]).getZoneState 1
          = ServoState.ERROR) := by
  refine ⟨?_, by decide, by decide, by decide⟩
  exact Reachable.step _ (Op.closeValve 1 20) (Reachable.step _ (Op.estopAll 10)
    (Reachable.step _ (Op.initOp 0) (Reachable.start 5)))

/-- C4: `angleToHaltValue` is a pure function: monotone non-decreasing on
[0,180], maps 0 to `PWM_MIN_PULSE = 205` and 180 to `PWM_MAX_PULSE = 410`,
clamps inputs above 180, and every input yields a pulse in
[`PWM_MIN_PULSE`, `PWM_MAX_PULSE`]. -/
theorem angleToHaltValue_spec :
    (∀ a b : Nat, a ≤ b → b ≤ 180 →
      Controller.angleToHaltValue a ≤ Controller.angleToHaltValue b) ∧
    Controller.angleToHaltValue 0 = PWM_MIN_PULSE ∧
    Controller.angleToHaltValue 180 = PWM_MAX_PULSE ∧
    PWM_MIN_PULSE = 205 ∧ PWM_MAX_PULSE = 410 ∧
    (∀ a : Nat, Controller.angleToHaltValue a = Controller.angleToHaltValue (min a 180)) ∧
    (∀ a : Nat, PWM_MIN_PULSE ≤ Controller.angleToHaltValue a ∧
      Controller.angleToHaltValue a ≤ PWM_MAX_PULSE) := by
  refine ⟨?_, by decide, by decide, rfl, rfl, ?_, ?_⟩
  · intro a b hab hb
    unfold Controller.angleToHaltValue
    dsimp only
    rw [if_neg (by omega), if_neg (by omega)]
    exact Nat.add_le_add_left (Nat.div_le_div_right (Nat.mul_le_mul_left _ hab)) _
  · intro a
    unfold Controller.angleToHaltValue
    dsimp only
    have hcl : (if a > 180 then 180 else a) = (if min a 180 > 180 then 180 else min a 180) := by
      split <;> split <;> omega
    rw [hcl]
  · intro a
    unfold Controller.angleToHaltValue
    dsimp only
    refine ⟨Nat.le_add_right _ _, ?_⟩
    have hc : (if a > 180 then 180 else a) ≤ 180 := by split <;> omega
    calc PWM_MIN_PULSE + (PWM_MAX_PULSE - PWM_MIN_PULSE) * (if a > 180 then 180 else a) / 180
        ≤ PWM_MIN_PULSE + (PWM_MAX_PULSE - PWM_MIN_PULSE) * 180 / 180 :=
          Nat.add_le_add_left (Nat.div_le_div_right (Nat.mul_le_mul_left _ hc)) _
      _ = PWM_MAX_PULSE := by decide

theorem angleToHaltValue_spec_witness :
    Controller.angleToHaltValue 45 ≤ Controller.angleToHaltValue 90 ∧
    Controller.angleToHaltValue 255 = Controller.angleToHaltValue (min 255 180) ∧
    PWM_MIN_PULSE ≤ Controller.angleToHaltValue 255 ∧
    Controller.angleToHaltValue 255 ≤ PWM_MAX_PULSE :=
  ⟨angleToHaltValue_spec.1 45 90 (by decide) (by decide),
   angleToHaltValue_spec.2.2.2.2.2.1 255,
   (angleToHaltValue_spec.2.2.2.2.2.2 255).1,
   (angleToHaltValue_spec.2.2.2.2.2.2 255).2⟩

/-- C10: `getZoneState` returns the `ERROR` sentinel and `getZoneInfo`
returns null (`none`) for zone number 0 or above the zone count; for a zone
number in [1, totalZones] both read exactly zone `zoneNumber - 1`.  Both
are pure functions of the state (`const` in the source), so no state
change is possible. -/
theorem zoneQuery_spec (s : Controller) (n : Nat) :
    ((n = 0 ∨ n > s.totalZones) →
      s.getZoneState n = ServoState.ERROR ∧ s.getZoneInfo n = none) ∧
    (1 ≤ n → n ≤ s.totalZones →
      s.getZoneInfo n = s.zones[n - 1]? ∧
      s.zones[n - 1]?.map (fun z => z.currentState) = some (s.getZoneState n)) := by
  constructor
  · intro hcond
    unfold Controller.getZoneState Controller.getZoneInfo
    rw [dif_pos hcond, if_pos hcond]
    exact ⟨rfl, rfl⟩
  · intro h1 h2
    have hcond : ¬ (n = 0 ∨ n > s.totalZones) := by omega
    have hlt : n - 1 < s.zones.length := by
      unfold Controller.totalZones at h2
      omega
    unfold Controller.getZoneState Controller.getZoneInfo
    rw [dif_neg hcond, if_neg hcond]
    refine ⟨rfl, ?_⟩
    rw [List.getElem?_eq_getElem hlt]
    rfl

theorem zoneQuery_spec_witness :
    (((mkController 5).init 0).2.getZoneState 7 = ServoState.ERROR ∧
      ((mkController 5).init 0).2.getZoneInfo 7 = none) ∧
    (((mkController 5).init 0).2.getZoneInfo 2 = ((mkController 5).init 0).2.zones[1]? ∧
      ((mkController 5).init 0).2.zones[1]?.map (fun z => z.currentState)
        = some (((mkController 5).init 0).2.getZoneState 2)) :=
  ⟨(zoneQuery_spec ((mkController 5).init 0).2 7).1 (by decide),
   (zoneQuery_spec ((mkController 5).init 0).2 2).2 (by decide) (by decide)⟩

/-- Forget the per-zone action timestamps (`lastActionTime`), the only
field in which two consecutive emergency stops can differ. -/
def scrubZoneTimes (s : Controller) : Controller :=
  { s with zones := s.zones.map fun z => { z with lastActionTime := 0 } }

/-- C9: `emergencyStopAll` is idempotent up to the per-zone action
timestamps, and after any call the emergency flag is set, the system state
is `ERROR`, auto-cycle is off, and every zone is `CLOSED`. -/
theorem emergencyStopAll_idempotent (s : Controller) (t1 t2 : Nat) :
    scrubZoneTimes ((s.emergencyStopAll t1).emergencyStopAll t2)
      = scrubZoneTimes (s.emergencyStopAll t1) ∧
    (s.emergencyStopAll t1).emergencyStop = true ∧
    (s.emergencyStopAll t1).systemState = IrrigationState.ERROR ∧
    (s.emergencyStopAll t1).autoCycle = false ∧
    (s.emergencyStopAll t1).zones.all
      (fun z => decide (z.currentState = ServoState.CLOSED)) = true := by
  refine ⟨?_, rfl, rfl, rfl, ?_⟩
  · unfold scrubZoneTimes Controller.emergencyStopAll
    dsimp only
    simp only [List.map_map]
    congr 1
  · unfold Controller.emergencyStopAll
    dsimp only
    rw [List.all_map]
    simp

/-- C5: `startIrrigationCycle` fails (returning `false` with the state
untouched) when the system is busy, when the emergency stop is active, or
when no zone is enabled; otherwise it records the auto-repeat flag, selects
the first enabled zone as `currentZone`, and enters `INITIALIZING`. -/
theorem startIrrigationCycle_spec (s : Controller) (b : Bool) (now : Nat) :
    ((s.systemState ≠ IrrigationState.IDLE ∧
        s.systemState ≠ IrrigationState.COMPLETED) →
      s.startIrrigationCycle b now = (false, s)) ∧
    ((s.systemState = IrrigationState.IDLE ∨
        s.systemState = IrrigationState.COMPLETED) →
      s.emergencyStop = true → s.startIrrigationCycle b now = (false, s)) ∧
    ((s.systemState = IrrigationState.IDLE ∨
        s.systemState = IrrigationState.COMPLETED) →
      (∀ z ∈ s.zones, z.isEnabled = false) →
      s.startIrrigationCycle b now = (false, s)) ∧
    ((s.systemState = IrrigationState.IDLE ∨
        s.systemState = IrrigationState.COMPLETED) →
      s.emergencyStop = false →
      ∀ i (hi : i < s.zones.length), (s.zones.get ⟨i, hi⟩).isEnabled = true →
        s.startIrrigationCycle b now =
          (true, { s with
            autoCycle := b
            currentZone := Controller.nextEnabledFrom s.zones 0
            systemState := IrrigationState.INITIALIZING
            stateStartTime := now }) ∧
        Controller.nextEnabledFrom s.zones 0 < s.zones.length ∧
        s.zones[Controller.nextEnabledFrom s.zones 0]?.map (fun z => z.isEnabled)
          = some true ∧
        (∀ j, j < Controller.nextEnabledFrom s.zones 0 →
          s.zones[j]?.map (fun z => z.isEnabled) = some false)) := by
  have hbusy : (s.systemState = IrrigationState.IDLE ∨
      s.systemState = IrrigationState.COMPLETED) →
      ¬ (s.systemState ≠ IrrigationState.IDLE ∧
        s.systemState ≠ IrrigationState.COMPLETED) := by
    rintro (h | h) ⟨h1, h2⟩
    · exact h1 h
    · exact h2 h
  refine ⟨?_, ?_, ?_, ?_⟩
  · intro h
    unfold Controller.startIrrigationCycle
    rw [if_pos h]
  · intro hst hem
    unfold Controller.startIrrigationCycle
    rw [if_neg (hbusy hst), if_pos hem]
  · intro hst hall
    unfold Controller.startIrrigationCycle
    rw [if_neg (hbusy hst)]
    by_cases hem : s.emergencyStop = true
    · rw [if_pos hem]
    · rw [if_neg hem, if_pos ?_]
      rw [List.length_eq_zero, List.filter_eq_nil]
      intro z hz
      simp [hall z hz]
  · intro hst hem i hi hien
    have hex : ∃ x ∈ s.zones, x.isEnabled = true :=
      ⟨s.zones.get ⟨i, hi⟩, List.get_mem _ _ _, hien⟩
    have hlt : List.findIdx (fun z => z.isEnabled) s.zones < s.zones.length :=
      List.findIdx_lt_length_of_exists hex
    have hne : Controller.nextEnabledFrom s.zones 0
        = List.findIdx (fun z => z.isEnabled) s.zones := by
      unfold Controller.nextEnabledFrom
      simp
    refine ⟨?_, ?_, ?_, ?_⟩
    · unfold Controller.startIrrigationCycle
      rw [if_neg (hbusy hst), if_neg (by simp [hem]), if_neg ?_]
      intro hzero
      rw [List.length_eq_zero, List.filter_eq_nil] at hzero
      exact hzero _ (List.get_mem _ _ _) hien
    · rw [hne]
      exact hlt
    · rw [hne, List.getElem?_eq_getElem hlt]
      have := @List.findIdx_getElem _ (fun z => z.isEnabled) s.zones hlt
      simp only [Option.map_some']
      rw [this]
    · intro j hj
      rw [hne] at hj
      have hjlen : j < s.zones.length := Nat.lt_of_lt_of_le hj
        (List.findIdx_le_length _)
      rw [List.getElem?_eq_getElem hjlen]
      have := List.not_of_lt_findIdx hj
      simp only [Option.map_some']
      rw [this]

theorem startIrrigationCycle_spec_witness :
    (((mkController 5).init 0).2.startIrrigationCycle true 50 =
      (true, { ((mkController 5).init 0).2 with
        autoCycle := true
        currentZone :=
          Controller.nextEnabledFrom ((mkController 5).init 0).2.zones 0
        systemState := IrrigationState.INITIALIZING
        stateStartTime := 50 }) ∧
      Controller.nextEnabledFrom ((mkController 5).init 0).2.zones 0
        < ((mkController 5).init 0).2.zones.length ∧
      ((mkController 5).init 0).2.zones[Controller.nextEnabledFrom
          ((mkController 5).init 0).2.zones 0]?.map (fun z => z.isEnabled)
        = some true ∧
      (∀ j, j < Controller.nextEnabledFrom ((mkController 5).init 0).2.zones 0 →
        ((mkController 5).init 0).2.zones[j]?.map (fun z => z.isEnabled)
          = some false)) ∧
    ((mkController 5).emergencyStopAll 7).startIrrigationCycle false 9
      = (false, (mkController 5).emergencyStopAll 7) :=
  ⟨(startIrrigationCycle_spec ((mkController 5).init 0).2 true 50).2.2.2
      (by decide) (by decide) 0 (by decide) (by decide),
   (startIrrigationCycle_spec ((mkController 5).emergencyStopAll 7) false 9).1
      (by decide)⟩

/-- C3 (code bug): the retry path of `handleServoError` calls `setupServo`,
which resets `retryCount` to 0, so consecutive timeouts never accumulate:
one error-handling step is a fixed point, and after
`MAX_SERVO_RETRY_ATTEMPTS + 1 = 4` consecutive timeout handlings zone 1
(index 0) is still enabled with `retryCount = 0` and state `CLOSED` —
the specified escalation to `ERROR`/disabled is unreachable; for every
number of timeouts the zone stays enabled and never reaches `ERROR`. -/
theorem handleServoError_never_escalates :
    MAX_SERVO_RETRY_ATTEMPTS = 3 ∧
    (((fun s : Controller => (s.handleServoError 0 50).2)^[4]
        ((mkController 5).init 0).2).zones[0]?.map
          (fun z => (z.isEnabled, z.retryCount, z.currentState))
      = some (true, 0, ServoState.CLOSED)) ∧
    (∀ n : Nat,
      ((fun s : Controller => (s.handleServoError 0 50).2)^[n]
          ((mkController 5).init 0).2).zones[0]?.map
            (fun z => (z.isEnabled, decide (z.currentState = ServoState.ERROR)))
        = some (true, false)) := by
  have hfix : ∀ n : Nat,
      ((fun s : Controller => (s.handleServoError 0 50).2)^[n + 1]
          ((mkController 5).init 0).2)
        = (fun s : Controller => (s.handleServoError 0 50).2)^[1]
            ((mkController 5).init 0).2 := by
    intro n
    induction n with
    | zero => rfl
    | succ m ih =>
      rw [Function.iterate_succ_apply', ih]
      rw [Function.iterate_one]
      decide
  refine ⟨rfl, by decide, ?_⟩
  intro n
  cases n with
  | zero => decide
  | succ m =>
    rw [hfix m, Function.iterate_one]
    decide

/-- C7 (code bug): `stopIrrigationCycle` during `IRRIGATING` moves to
`CLOSING_VALVE`, but `handleClosingValveState` then proceeds to the next
enabled zone (`TRANSITIONING`, then `OPENING_VALVE` on zone 2) instead of
settling in `IDLE`: the graceful stop does not stop the cycle. -/
theorem stopCycle_continues_cycle :
    (runOps (mkController 5)
      [Op.initOp 0, Op.startCycle false 100, Op.tick 200, Op.tick 300]).systemState
        = IrrigationState.IRRIGATING ∧
    (runOps (mkController 5)
      [Op.initOp 0, Op.startCycle false 100, Op.tick 200, Op.tick 300,
       Op.stopCycle 400]).systemState = IrrigationState.CLOSING_VALVE ∧
    (runOps (mkController 5)
      [Op.initOp 0, Op.startCycle false 100, Op.tick 200, Op.tick 300,
       Op.stopCycle 400, Op.tick 500]).systemState
        = IrrigationState.TRANSITIONING ∧
    (runOps (mkController 5)
      [Op.initOp 0, Op.startCycle false 100, Op.tick 200, Op.tick 300,
       Op.stopCycle 400, Op.tick 500]).currentZone = 1 ∧
    (runOps (mkController 5)
      [Op.initOp 0, Op.startCycle false 100, Op.tick 200, Op.tick 300,
       Op.stopCycle 400, Op.tick 500, Op.tick 600000]).systemState
        = IrrigationState.OPENING_VALVE ∧
    (runOps (mkController 5)
      [Op.initOp 0, Op.startCycle false 100, Op.tick 200, Op.tick 300,
       Op.stopCycle 400, Op.tick 500, Op.tick 600000]).currentZone = 1 := by
  refine ⟨by decide, by decide, by decide, by decide, by decide, by decide⟩

theorem modifyIdx_modifyIdx (f g : α → α) (k : Nat) (l : List α) :
    modifyIdx f k (modifyIdx g k l) = modifyIdx (fun a => f (g a)) k l := by
  induction l generalizing k with
  | nil => cases k <;> rfl
  | cons a as ih =>
    cases k with
    | zero => rfl
    | succ m => simpa [modifyIdx] using ih m

/-- C8 counterexample: with the emergency stop active, `closeZoneValve 1`
returns `true` and changes zone 1's state, contradicting the claim that
both manual overrides fail and leave the state unchanged. -/
theorem manualOverride_gating_counterexample :
    ((runOps (mkController 5) [Op.initOp 0, Op.estopAll 10]).emergencyStop = true) ∧
    ((runOps (mkController 5) [Op.initOp 0, Op.estopAll 10]).closeZoneValve 1 20).1
      = true ∧
    ((runOps (mkController 5) [Op.initOp 0, Op.estopAll 10]).closeZoneValve 1 20).2
      ≠ runOps (mkController 5) [Op.initOp 0, Op.estopAll 10] := by
  refine ⟨by decide, by decide, by decide⟩

/-- C8 (amended): while the emergency stop is active, `openZoneValve`
fails for every zone number and duration with the state unchanged, and
`closeZoneValve` fails with the state unchanged only for invalid zone
numbers — for a valid zone it is NOT gated: it returns `true` and marks
the zone `CLOSING`. -/
theorem manualOverride_gating (s : Controller) (n d now : Nat)
    (hem : s.emergencyStop = true) :
    s.openZoneValve n d now = (false, s) ∧
    ((n = 0 ∨ n > s.totalZones) → s.closeZoneValve n now = (false, s)) ∧
    (1 ≤ n → n ≤ s.totalZones →
      (s.closeZoneValve n now).1 = true ∧
      (s.closeZoneValve n now).2
        = s.modifyZone (n - 1) (fun z =>
            { z with currentState := ServoState.CLOSING, lastActionTime := now })) := by
  refine ⟨?_, ?_, ?_⟩
  · unfold Controller.openZoneValve
    by_cases hval : n = 0 ∨ n > s.totalZones
    · rw [if_pos hval]
    · rw [if_neg hval, if_pos hem]
  · intro hcond
    unfold Controller.closeZoneValve
    rw [if_pos hcond]
  · intro h1 h2
    have hcond : ¬ (n = 0 ∨ n > s.totalZones) := by omega
    have hidx : n - 1 < s.totalZones := by
      unfold Controller.totalZones
      unfold Controller.totalZones at h2
      omega
    unfold Controller.closeZoneValve
    rw [if_neg hcond]
    dsimp only
    rw [moveServoToAngle_closed_in now hidx]
    dsimp only
    rw [if_pos rfl]
    refine ⟨rfl, ?_⟩
    unfold Controller.modifyZone
    dsimp only
    rw [modifyIdx_modifyIdx]

theorem manualOverride_gating_witness :
    ((mkController 5).emergencyStopAll 7).openZoneValve 2 0 9
      = (false, (mkController 5).emergencyStopAll 7) ∧
    (((mkController 5).emergencyStopAll 7).closeZoneValve 2 9).1 = true ∧
    (((mkController 5).emergencyStopAll 7).closeZoneValve 2 9).2
      = ((mkController 5).emergencyStopAll 7).modifyZone 1 (fun z =>
          { z with currentState := ServoState.CLOSING, lastActionTime := 9 }) :=
  ⟨(manualOverride_gating ((mkController 5).emergencyStopAll 7) 2 0 9 (by decide)).1,
   ((manualOverride_gating ((mkController 5).emergencyStopAll 7) 2 0 9 (by decide)).2.2
      (by decide) (by decide)).1,
   ((manualOverride_gating ((mkController 5).emergencyStopAll 7) 2 0 9 (by decide)).2.2
      (by decide) (by decide)).2⟩

/-! ## The System Supervisor (`SystemManager`, src/src/core/SystemManager.cpp)

External collaborators (`ConfigManager`, `SystemConfigValidator`, the RTC
driver, `ESP.getFreeHeap()`) are modelled as boolean/numeric inputs; the
injected `ServoPWMController` is the `Controller` model above. -/

inductive SystemState where
  | INITIALIZING
  | CONFIGURATION_MODE
  | NORMAL_OPERATION
  | ERROR_RECOVERY
  | EMERGENCY_STOP
deriving DecidableEq, Repr

/-- The injected RTC driver as the supervisor observes it: `halted` is what
`isHalted()` currently reports; `startWorks` says whether `start()` succeeds
(and the clock then reports running); `readWorks`/`dateValid` describe
`getDateTime` and the validity of the read date; `writeWorks` describes
`setDateTime`. -/
structure RTCModel where
  halted : Bool
  startWorks : Bool
  readWorks : Bool
  dateValid : Bool
  writeWorks : Bool
deriving DecidableEq, Repr

structure Manager where
  rtcPresent : Bool
  rtc : RTCModel
  servoPresent : Bool
  servo : Controller
  currentState : SystemState
  lastStateChange : Nat
  consecutiveErrors : Nat
deriving DecidableEq, Repr

/-- The `SystemManager` constructor: starts in `INITIALIZING` with no
consecutive errors. -/
def mkManager (rtcPresent : Bool) (rtc : RTCModel) (servoPresent : Bool)
    (servo : Controller) : Manager :=
  { rtcPresent := rtcPresent, rtc := rtc, servoPresent := servoPresent,
    servo := servo, currentState := SystemState.INITIALIZING,
    lastStateChange := 0, consecutiveErrors := 0 }

namespace Manager

/-- the `SystemManager` init entry point (`initialize()` in the source).  `configOk` models
`ConfigManager::initialize()` and `validationOk` models
`SystemConfigValidator::validateAllConfiguration()`; a failed `rtc->init()`
is only logged, so it is not modelled.  A halted clock that cannot be
restarted, a failed date read, or an invalid date each put the supervisor
in `ERROR_RECOVERY`; a missing or failing servo controller is fatal. -/
def initializeSystem (m : Manager) (configOk validationOk : Bool) (now : Nat) :
    Bool × Manager :=
  if ¬ configOk then (false, m)
  else if ¬ validationOk then (false, m)
  else
    let m1 :=
      if m.rtcPresent then
        let rtc1 :=
          if m.rtc.halted && m.rtc.startWorks then { m.rtc with halted := false }
          else m.rtc
        let ma := { m with rtc := rtc1 }
        let mb :=
          if ma.rtc.readWorks then
            if ¬ ma.rtc.dateValid then
              { ma with currentState := SystemState.ERROR_RECOVERY,
                        lastStateChange := now }
            else ma
          else
            { ma with currentState := SystemState.ERROR_RECOVERY,
                      lastStateChange := now }
        if mb.rtc.halted then
          { mb with currentState := SystemState.ERROR_RECOVERY,
                    lastStateChange := now }
        else mb
      else
        { m with currentState := SystemState.ERROR_RECOVERY,
                 lastStateChange := now }
    if m1.servoPresent then
      let r := m1.servo.init now
      if ¬ r.1 then
        (false, { m1 with
          servo := r.2
          currentState := SystemState.ERROR_RECOVERY
          consecutiveErrors := m1.consecutiveErrors + 1 })
      else
        let m2 := { m1 with servo := r.2 }
        let m3 :=
          if m2.currentState ≠ SystemState.ERROR_RECOVERY then
            { m2 with currentState := SystemState.NORMAL_OPERATION }
          else m2
        (true, { m3 with lastStateChange := now })
    else (false, { m1 with currentState := SystemState.EMERGENCY_STOP })

/-- `SystemManager::startIrrigationCycle`: delegates to
`servoController->startCycle(true)` (whose own result is discarded) only in
`NORMAL_OPERATION`. -/
def startIrrigationCycle (m : Manager) (now : Nat) : Bool × Manager :=
  if m.currentState ≠ SystemState.NORMAL_OPERATION then (false, m)
  else if m.servoPresent then
    (true, { m with servo := (m.servo.startIrrigationCycle true now).2 })
  else (false, m)

/-- `SystemManager::setRTCDateTime`; `dateValid` models
`DateTime::isValid()` on the supplied fields.  On a successful write while
in `CONFIGURATION_MODE` the supervisor moves to `NORMAL_OPERATION` and
clears the consecutive-error counter. -/
def setRTCDateTime (m : Manager) (dateValid : Bool) (now : Nat) :
    Bool × Manager :=
  if ¬ m.rtcPresent then (false, m)
  else if ¬ dateValid then (false, m)
  else if m.rtc.writeWorks then
    if m.currentState = SystemState.CONFIGURATION_MODE then
      (true, { m with
        currentState := SystemState.NORMAL_OPERATION
        lastStateChange := now
        consecutiveErrors := 0 })
    else (true, m)
  else (false, m)

/-- `SystemManager::validateSystemHealth`; `freeHeap` models
`ESP.getFreeHeap()`.  `servoController->getState() == ServoControlState::ERROR`
holds exactly when the sequencer's state is `IrrigationState::ERROR`. -/
def validateSystemHealth (m : Manager) (freeHeap : Nat) (now : Nat) :
    Bool × Manager :=
  if m.currentState = SystemState.EMERGENCY_STOP ∨
     m.currentState = SystemState.ERROR_RECOVERY ∨
     m.currentState = SystemState.CONFIGURATION_MODE then (true, m)
  else
    if m.rtcPresent = true ∧ m.rtc.halted = true ∧
       m.currentState = SystemState.NORMAL_OPERATION then
      (true, { m with
        currentState := SystemState.CONFIGURATION_MODE
        lastStateChange := now })
    else
      ((!decide (freeHeap < 8000)) &&
        !(m.servoPresent && decide (m.servo.systemState = IrrigationState.ERROR)),
       m)

end Manager

/-- C6 counterexample: `initialize()` with a clock source that keeps
reporting `is_halted() == true` (restart fails, read works, date valid,
servo controller present and initializable) leaves the supervisor in
`ERROR_RECOVERY`, not the claimed `CONFIGURATION_MODE`; and from that
state a successful `setRTCDateTime` does not change the mode, so
`start_irrigation_cycle` keeps returning `false`. -/
theorem supervisor_clockGating_counterexample :
    ((mkManager true
        { halted := true, startWorks := false, readWorks := true,
          dateValid := true, writeWorks := true }
        true (mkController 5)).initializeSystem true true 0).2.currentState
      = SystemState.ERROR_RECOVERY ∧
    ((mkManager true
        { halted := true, startWorks := false, readWorks := true,
          dateValid := true, writeWorks := true }
        true (mkController 5)).initializeSystem true true 0).2.currentState
      ≠ SystemState.CONFIGURATION_MODE ∧
    ((((mkManager true
        { halted := true, startWorks := false, readWorks := true,
          dateValid := true, writeWorks := true }
        true (mkController 5)).initializeSystem true true 0).2.setRTCDateTime
          true 5).2.currentState = SystemState.ERROR_RECOVERY) ∧
    (((((mkManager true
        { halted := true, startWorks := false, readWorks := true,
          dateValid := true, writeWorks := true }
        true (mkController 5)).initializeSystem true true 0).2.setRTCDateTime
          true 5).2.startIrrigationCycle 6).1 = false) := by
  refine ⟨by decide, by decide, by decide, by decide⟩

/-- C6 (amended): `initialize()` with a persistently halted clock ends in
`ERROR_RECOVERY` (not `CONFIGURATION_MODE`); `start_irrigation_cycle`
returns `false` (with no state change) whenever the mode is not
`NORMAL_OPERATION`; `CONFIGURATION_MODE` is instead entered by the health
check when a halted clock is detected during `NORMAL_OPERATION`, and from
`CONFIGURATION_MODE` a successful `set_clock_datetime` yields
`NORMAL_OPERATION` with `consecutive_errors` cleared, after which
`start_irrigation_cycle` succeeds. -/
theorem supervisor_clockGating (m : Manager) (now now2 : Nat) :
    (m.rtcPresent = true → m.rtc.halted = true → m.rtc.startWorks = false →
      m.servoPresent = true →
      (m.initializeSystem true true now).2.currentState = SystemState.ERROR_RECOVERY ∧
      (m.initializeSystem true true now).2.currentState ≠ SystemState.CONFIGURATION_MODE) ∧
    (m.currentState ≠ SystemState.NORMAL_OPERATION →
      m.startIrrigationCycle now = (false, m)) ∧
    (m.currentState = SystemState.NORMAL_OPERATION → m.rtcPresent = true →
      m.rtc.halted = true → ∀ freeHeap,
      (m.validateSystemHealth freeHeap now).2.currentState
        = SystemState.CONFIGURATION_MODE) ∧
    (m.currentState = SystemState.CONFIGURATION_MODE → m.rtcPresent = true →
      m.rtc.writeWorks = true →
      (m.setRTCDateTime true now).1 = true ∧
      (m.setRTCDateTime true now).2.currentState = SystemState.NORMAL_OPERATION ∧
      (m.setRTCDateTime true now).2.consecutiveErrors = 0 ∧
      (m.servoPresent = true →
        ((m.setRTCDateTime true now).2.startIrrigationCycle now2).1 = true)) := by
  refine ⟨?_, ?_, ?_, ?_⟩
  · intro hp hh hs hsp
    unfold Manager.initializeSystem
    rw [if_neg (by simp), if_neg (by simp)]
    dsimp only
    rw [if_pos hp, hh, hs,
      if_neg (show ¬ ((true && false) = true) by decide)]
    split_ifs <;> first
      | exact ⟨rfl, by simp⟩
      | simp_all
  · intro h
    unfold Manager.startIrrigationCycle
    rw [if_pos h]
  · intro hst hp hh freeHeap
    unfold Manager.validateSystemHealth
    rw [if_neg (by simp [hst]), if_pos ⟨hp, hh, hst⟩]
  · intro hst hp hw
    unfold Manager.setRTCDateTime
    rw [if_neg (by simp [hp]), if_neg (by simp), if_pos hw, if_pos hst]
    refine ⟨rfl, rfl, rfl, ?_⟩
    intro hsp
    unfold Manager.startIrrigationCycle
    rw [if_neg (by simp), if_pos (by simpa using hsp)]

theorem supervisor_clockGating_witness :
    ((mkManager true
        { halted := true, startWorks := false, readWorks := true,
          dateValid := true, writeWorks := true }
        true (mkController 5)).initializeSystem true true 0).2.currentState
        = SystemState.ERROR_RECOVERY ∧
    (mkManager true
        { halted := true, startWorks := false, readWorks := true,
          dateValid := true, writeWorks := true }
        true (mkController 5)).startIrrigationCycle 3
      = (false, mkManager true
        { halted := true, startWorks := false, readWorks := true,
          dateValid := true, writeWorks := true }
        true (mkController 5)) ∧
    (({ mkManager true
        { halted := true, startWorks := false, readWorks := true,
          dateValid := true, writeWorks := true }
        true (mkController 5) with
        currentState := SystemState.NORMAL_OPERATION }
          : Manager).validateSystemHealth 9000 4).2.currentState
      = SystemState.CONFIGURATION_MODE ∧
    (({ mkManager true
        { halted := true, startWorks := false, readWorks := true,
          dateValid := true, writeWorks := true }
        true (mkController 5) with
        currentState := SystemState.CONFIGURATION_MODE }
          : Manager).setRTCDateTime true 5).2.currentState
      = SystemState.NORMAL_OPERATION ∧
    ((({ mkManager true
        { halted := true, startWorks := false, readWorks := true,
          dateValid := true, writeWorks := true }
        true (mkController 5) with
        currentState := SystemState.CONFIGURATION_MODE }
          : Manager).setRTCDateTime true 5).2.startIrrigationCycle 6).1 = true :=
  ⟨((supervisor_clockGating (mkManager true
        { halted := true, startWorks := false, readWorks := true,
          dateValid := true, writeWorks := true }
        true (mkController 5)) 0 0).1 (by decide) (by decide) (by decide) (by decide)).1,
   (supervisor_clockGating (mkManager true
        { halted := true, startWorks := false, readWorks := true,
          dateValid := true, writeWorks := true }
        true (mkController 5)) 3 0).2.1 (by decide),
   (supervisor_clockGating ({ mkManager true
        { halted := true, startWorks := false, readWorks := true,
          dateValid := true, writeWorks := true }
        true (mkController 5) with
        currentState := SystemState.NORMAL_OPERATION } : Manager) 4 0).2.2.1
      (by decide) (by decide) (by decide) 9000,
   ((supervisor_clockGating ({ mkManager true
        { halted := true, startWorks := false, readWorks := true,
          dateValid := true, writeWorks := true }
        true (mkController 5) with
        currentState := SystemState.CONFIGURATION_MODE } : Manager) 5 6).2.2.2
      (by decide) (by decide) (by decide)).2.1,
   (((supervisor_clockGating ({ mkManager true
        { halted := true, startWorks := false, readWorks := true,
          dateValid := true, writeWorks := true }
        true (mkController 5) with
        currentState := SystemState.CONFIGURATION_MODE } : Manager) 5 6).2.2.2
      (by decide) (by decide) (by decide)).2.2.2 (by decide))⟩

end SistemaRiego
